import Mathlib

-- Verification of the code-quality scoring engine in src/utils/scoring.js.
-- Code snapshots are Lean Strings; JS numbers are modelled as exact rationals,
-- with the IEEE special values that arise from division by zero modelled
-- explicitly by the JNum type below. Each regular expression of the source is
-- embedded as a deterministic matcher implementing that regex's semantics
-- (greedy quantifiers, observable backtracking at trailing word boundaries,
-- global scan resuming after each match).

-- ### Character classes used by the regular expressions of the source

-- JS whitespace class, ASCII range: space, tab, newline, carriage return,
-- vertical tab, form feed.
def jsWs (c : Char) : Bool :=
  c == ' ' || c == '\t' || c == '\n' || c == '\r' || c == '\x0b' || c == '\x0c'

def isLowerAZ (c : Char) : Bool := decide ('a' ≤ c ∧ c ≤ 'z')

def isUpperAZ (c : Char) : Bool := decide ('A' ≤ c ∧ c ≤ 'Z')

def isDigit09 (c : Char) : Bool := decide ('0' ≤ c ∧ c ≤ '9')

def isLetterAZ (c : Char) : Bool := isLowerAZ c || isUpperAZ c

def isAlnum (c : Char) : Bool := isLetterAZ c || isDigit09 c

-- JS word characters, as used by word boundaries: [A-Za-z0-9_]. Note that $
-- is not a word character.
def isWordChar (c : Char) : Bool := isAlnum c || c == '_'

-- Identifier characters of the declaration regexes: [a-zA-Z0-9_$].
def isIdentChar (c : Char) : Bool := isWordChar c || c == '$'

def isIdentStart (c : Char) : Bool := isLetterAZ c || c == '_' || c == '$'

def lbrace : Char := '\x7b'

def rbrace : Char := '\x7d'

def isWordOpt : Option Char → Bool
  | none => false
  | some c => isWordChar c

-- ### Elementary list-of-characters utilities

def startsWithChars : List Char → List Char → Bool
  | [], _ => true
  | _ :: _, [] => false
  | p :: ps, c :: cs => p == c && startsWithChars ps cs

-- code.split of a newline: the list of lines, without the separators.
def splitNl : List Char → List (List Char)
  | [] => [[]]
  | c :: rest =>
    if c = '\n' then [] :: splitNl rest
    else
      match splitNl rest with
      | [] => [[c]]
      | l :: ls => (c :: l) :: ls

-- String.prototype.trim over one line (lines contain no newline).
def trimL (l : List Char) : List Char :=
  ((l.dropWhile jsWs).reverse.dropWhile jsWs).reverse

def countChar (c : Char) (l : List Char) : Nat :=
  (l.filter (fun d => d == c)).length

-- ### JS division results: finite, infinite, or NaN

-- Division of two (exact) JS numbers: a finite rational when the divisor is
-- nonzero, otherwise a signed infinity or NaN. Every comparison of NaN is
-- false; comparisons of infinities behave as expected.
inductive JNum where
  | fin : ℚ → JNum
  | posInf : JNum
  | negInf : JNum
  | nan : JNum

def jdiv (a b : ℚ) : JNum :=
  if b = 0 then
    if a = 0 then JNum.nan else if 0 < a then JNum.posInf else JNum.negInf
  else JNum.fin (a / b)

-- x > c for a JS division result x and a finite literal c.
def jgtQ : JNum → ℚ → Bool
  | JNum.fin q, c => decide (c < q)
  | JNum.posInf, _ => true
  | JNum.negInf, _ => false
  | JNum.nan, _ => false

-- x < c.
def jltQ : JNum → ℚ → Bool
  | JNum.fin q, c => decide (q < c)
  | JNum.posInf, _ => false
  | JNum.negInf, _ => true
  | JNum.nan, _ => false

-- x <= c.
def jleQ : JNum → ℚ → Bool
  | JNum.fin q, c => decide (q ≤ c)
  | JNum.posInf, _ => false
  | JNum.negInf, _ => true
  | JNum.nan, _ => false

-- JS Math.round: round half toward positive infinity.
def jsRound (q : ℚ) : Int := Int.floor (q + 1/2)

-- ### Global regex scanning

-- str.match(re) with the g flag, counting matches: repeatedly try the matcher
-- at the current position; on a match of length len resume right after it,
-- otherwise advance one character. The scan is written with a fuel counter
-- for structural recursion; every step discards at least one character, so a
-- fuel equal to the string's length (supplied by the wrapper below) makes the
-- bounded scan agree with the unbounded one.
def countPatGo (tryM : List Char → Option Nat) : Nat → List Char → Nat
  | 0, _ => 0
  | _, [] => 0
  | fuel + 1, c :: rest =>
    match tryM (c :: rest) with
    | some len => 1 + countPatGo tryM fuel (List.drop (len - 1) rest)
    | none => countPatGo tryM fuel rest

def countPat (tryM : List Char → Option Nat) (l : List Char) : Nat :=
  countPatGo tryM l.length l

-- Same global scan, collecting a capture from each match (matchAll semantics).
def collectPatGo {α : Type} (tryM : List Char → Option (Nat × α)) : Nat → List Char → List α
  | 0, _ => []
  | _, [] => []
  | fuel + 1, c :: rest =>
    match tryM (c :: rest) with
    | some (len, a) => a :: collectPatGo tryM fuel (List.drop (len - 1) rest)
    | none => collectPatGo tryM fuel rest

def collectPat {α : Type} (tryM : List Char → Option (Nat × α)) (l : List Char) : List α :=
  collectPatGo tryM l.length l

-- Global scan for patterns anchored at a word boundary: the matcher also sees
-- the character immediately before the current position (none at the start).
def collectPatBGo {α : Type} (tryM : Option Char → List Char → Option (Nat × α)) :
    Nat → Option Char → List Char → List α
  | 0, _, _ => []
  | _, _, [] => []
  | fuel + 1, prev, c :: rest =>
    match tryM prev (c :: rest) with
    | some (len, a) =>
        a :: collectPatBGo tryM fuel (((c :: rest).take len).getLast?) (List.drop (len - 1) rest)
    | none => collectPatBGo tryM fuel (some c) rest

def collectPatB {α : Type} (tryM : Option Char → List Char → Option (Nat × α))
    (prev : Option Char) (l : List Char) : List α :=
  collectPatBGo tryM l.length prev l

-- ### The individual regexes of the source

-- eval\s*\(
def tryEval (l : List Char) : Option Nat :=
  if startsWithChars ['e','v','a','l'] l then
    let r1 := List.drop 4 l
    let ws := (r1.takeWhile jsWs).length
    if (List.drop ws r1).head? = some '(' then some (4 + ws + 1) else none
  else none

-- new\s+Function\s*\(
def tryNewFunction (l : List Char) : Option Nat :=
  if startsWithChars ['n','e','w'] l then
    let r1 := List.drop 3 l
    let ws1 := (r1.takeWhile jsWs).length
    if ws1 = 0 then none else
    let r2 := List.drop ws1 r1
    if startsWithChars ['F','u','n','c','t','i','o','n'] r2 then
      let r3 := List.drop 8 r2
      let ws2 := (r3.takeWhile jsWs).length
      if (List.drop ws2 r3).head? = some '(' then some (3 + ws1 + 8 + ws2 + 1) else none
    else none
  else none

def notBrace (c : Char) : Bool := !(c == lbrace) && !(c == rbrace)

-- n opening braces separated by runs of non-brace characters; nothing is
-- required after the last opening brace.
def tryBraces : Nat → List Char → Option Nat
  | 0, _ => some 0
  | n + 1, l =>
    if l.head? = some lbrace then
      if n = 0 then some 1
      else
        let r := List.drop 1 l
        let a := (r.takeWhile notBrace).length
        match tryBraces n (List.drop a r) with
        | some m => some (1 + a + m)
        | none => none
    else none

-- The deep-nesting heuristic regex: four nested opening braces with only
-- non-brace characters in between.
def tryDeep (l : List Char) : Option Nat := tryBraces 4 l

-- An empty block: an opening brace, whitespace, a closing brace.
def tryEmptyBlock (l : List Char) : Option Nat :=
  if l.head? = some lbrace then
    let r1 := List.drop 1 l
    let ws := (r1.takeWhile jsWs).length
    if (List.drop ws r1).head? = some rbrace then some (1 + ws + 1) else none
  else none

-- After the false/0 literal of if\s*\(\s*(false|0)\s*\): whitespace and the
-- closing parenthesis.
def tryIfFalseTail (l : List Char) (litLen : Nat) : Option Nat :=
  let ws := (l.takeWhile jsWs).length
  if (List.drop ws l).head? = some ')' then some (litLen + ws + 1) else none

-- if\s*\(\s*(false|0)\s*\) ; the two alternatives begin with distinct
-- characters, so the alternation is deterministic.
def tryIfFalse (l : List Char) : Option Nat :=
  if startsWithChars ['i','f'] l then
    let r1 := List.drop 2 l
    let ws1 := (r1.takeWhile jsWs).length
    let r2 := List.drop ws1 r1
    if r2.head? = some '(' then
      let r3 := List.drop 1 r2
      let ws2 := (r3.takeWhile jsWs).length
      let r4 := List.drop ws2 r3
      let hd := 2 + ws1 + 1 + ws2
      if startsWithChars ['f','a','l','s','e'] r4 then
        (tryIfFalseTail (List.drop 5 r4) 5).map (fun tl => hd + tl)
      else if r4.head? = some '0' then
        (tryIfFalseTail (List.drop 1 r4) 1).map (fun tl => hd + tl)
      else none
    else none
  else none

-- function\s+([a-zA-Z_$][a-zA-Z0-9_$]*)\s*\([^)]*\)\s*{([^}]*)} with braces
-- written here as words: the capture returned is the function body (group 2).
def tryFunctionDecl (l : List Char) : Option (Nat × List Char) :=
  if startsWithChars ['f','u','n','c','t','i','o','n'] l then
    let r1 := List.drop 8 l
    let ws1 := (r1.takeWhile jsWs).length
    if ws1 = 0 then none else
    let r2 := List.drop ws1 r1
    let nameRun := r2.takeWhile isIdentChar
    if !(isIdentStart (nameRun.headD ' ')) then none else
    let r3 := List.drop nameRun.length r2
    let ws2 := (r3.takeWhile jsWs).length
    let r4 := List.drop ws2 r3
    if r4.head? = some '(' then
      let r5 := List.drop 1 r4
      let params := r5.takeWhile (fun c => !(c == ')'))
      let r6 := List.drop params.length r5
      if r6.head? = some ')' then
        let r7 := List.drop 1 r6
        let ws3 := (r7.takeWhile jsWs).length
        let r8 := List.drop ws3 r7
        if r8.head? = some lbrace then
          let r9 := List.drop 1 r8
          let body := r9.takeWhile (fun c => !(c == rbrace))
          let r10 := List.drop body.length r9
          if r10.head? = some rbrace then
            some (8 + ws1 + nameRun.length + ws2 + 1 + params.length + 1
                    + ws3 + 1 + body.length + 1, body)
          else none
        else none
      else none
    else none
  else none

-- \([^)]*\)\s*=>\s*{([^}]*)} : the capture returned is the body (group 1).
def tryArrow (l : List Char) : Option (Nat × List Char) :=
  if l.head? = some '(' then
    let r1 := List.drop 1 l
    let params := r1.takeWhile (fun c => !(c == ')'))
    let r2 := List.drop params.length r1
    if r2.head? = some ')' then
      let r3 := List.drop 1 r2
      let ws1 := (r3.takeWhile jsWs).length
      let r4 := List.drop ws1 r3
      if startsWithChars ['=','>'] r4 then
        let r5 := List.drop 2 r4
        let ws2 := (r5.takeWhile jsWs).length
        let r6 := List.drop ws2 r5
        if r6.head? = some lbrace then
          let r7 := List.drop 1 r6
          let body := r7.takeWhile (fun c => !(c == rbrace))
          let r8 := List.drop body.length r7
          if r8.head? = some rbrace then
            some (1 + params.length + 1 + ws1 + 2 + ws2 + 1 + body.length + 1, body)
          else none
        else none
      else none
    else none
  else none

-- The keyword alternative (var|let|const); the three keywords begin with
-- distinct characters, so the alternation is deterministic.
def tryKw (l : List Char) : Option Nat :=
  if startsWithChars ['v','a','r'] l then some 3
  else if startsWithChars ['l','e','t'] l then some 3
  else if startsWithChars ['c','o','n','s','t'] l then some 5
  else none

-- A word boundary inside or at the end of the greedy identifier run
-- [a-zA-Z_$][a-zA-Z0-9_$]*: any character after the run is not a word
-- character (word characters are a subset of identifier characters), so a
-- candidate name of length k ends at a boundary exactly under this test.
def nameLenOk (run : List Char) (k : Nat) : Bool :=
  if k = run.length then isWordChar (run.getD (k - 1) ' ')
  else xor (isWordChar (run.getD (k - 1) ' ')) (isWordChar (run.getD k ' '))

-- Greedy backtracking: the regex engine first tries the whole run and then
-- shorter prefixes, so the captured name is the longest prefix ending at a
-- word boundary.
def chooseNameLenGo (run : List Char) : Nat → Option Nat
  | 0 => none
  | k + 1 => if nameLenOk run (k + 1) then some (k + 1) else chooseNameLenGo run k

def chooseNameLen (run : List Char) : Option Nat := chooseNameLenGo run run.length

-- (var|let|const)\s+([a-zA-Z_$][a-zA-Z0-9_$]*)\b without the leading word
-- boundary; returns the match length and the captured name. The source reads
-- the name back with decl.split on whitespace at index 1, which is exactly
-- the capture.
def tryVarDeclCore (l : List Char) : Option (Nat × List Char) :=
  match tryKw l with
  | none => none
  | some kwLen =>
    let r1 := List.drop kwLen l
    let ws := (r1.takeWhile jsWs).length
    if ws = 0 then none else
    let r2 := List.drop ws r1
    let run := r2.takeWhile isIdentChar
    if !(isIdentStart (run.headD ' ')) then none else
    match chooseNameLen run with
    | none => none
    | some k => some (kwLen + ws + k, run.take k)

-- \b(var|let|const)\s+([a-zA-Z_$][a-zA-Z0-9_$]*)\b : the leading boundary
-- holds exactly when the previous character is not a word character, because
-- the keyword starts with a letter.
def tryVarDeclB (prev : Option Char) (l : List Char) : Option (Nat × List Char) :=
  if isWordOpt prev then none else tryVarDeclCore l

-- All declared variable names of a snapshot, in order.
def extractVarNames (l : List Char) : List (List Char) :=
  collectPatB tryVarDeclB none l

-- \b(var|let|const)\s+([a-zA-Z])\b : a single-letter declaration.
def trySingleVar (prev : Option Char) (l : List Char) : Option (Nat × Char) :=
  if isWordOpt prev then none else
  match tryKw l with
  | none => none
  | some kwLen =>
    let r1 := List.drop kwLen l
    let ws := (r1.takeWhile jsWs).length
    if ws = 0 then none else
    match List.drop ws r1 with
    | [] => none
    | c0 :: r3 =>
      if isLetterAZ c0 && !(isWordOpt r3.head?) then some (kwLen + ws + 1, c0)
      else none

-- \b(var|let|const)\s+([a-z][a-zA-Z0-9]*[A-Z][a-zA-Z0-9]*|[a-zA-Z]+_[a-zA-Z]+)\b :
-- a descriptive (camelCase or snake_case) declaration. In the first
-- alternative a word boundary inside an alphanumeric run is impossible, so
-- the only candidate end is the end of the run; in the second the letter runs
-- are maximal for the same reason.
def tryDescriptive (prev : Option Char) (l : List Char) : Option (Nat × List Char) :=
  if isWordOpt prev then none else
  match tryKw l with
  | none => none
  | some kwLen =>
    let r1 := List.drop kwLen l
    let ws := (r1.takeWhile jsWs).length
    if ws = 0 then none else
    let r2 := List.drop ws r1
    let run1 := r2.takeWhile isAlnum
    if isLowerAZ (run1.headD ' ') && run1.any isUpperAZ
        && !(isWordOpt ((List.drop run1.length r2).head?)) then
      some (kwLen + ws + run1.length, run1)
    else
      let s1 := r2.takeWhile isLetterAZ
      if s1 = [] then none else
      let r3 := List.drop s1.length r2
      if r3.head? = some '_' then
        let r4 := List.drop 1 r3
        let s2 := r4.takeWhile isLetterAZ
        if s2 = [] then none else
        if isWordOpt ((List.drop s2.length r4).head?) then none
        else some (kwLen + ws + s1.length + 1 + s2.length, s1 ++ '_' :: s2)
      else none

-- ### countOccurrences (source lines 237-247)

-- indexOf-based counting that advances by one character after each hit, so
-- overlapping occurrences all count. Only ever called with a nonempty needle.
def countOccurrences : List Char → List Char → Nat
  | [], _ => 0
  | c :: rest, needle =>
    (if startsWithChars needle (c :: rest) then 1 else 0) + countOccurrences rest needle

-- ### countIndentationIssues (source lines 255-281)

-- Fold over the lines carrying the running issue count and the expected
-- indent depth. Blank lines are skipped entirely; the expected depth grows
-- after a line ending in an opening brace and shrinks (floored at zero, which
-- is exactly truncated Nat subtraction) after a line starting with a closing
-- brace.
def indentIssuesGo : Nat → Nat → List (List Char) → Nat
  | issues, _, [] => issues
  | issues, expected, ln :: rest =>
    let t := trimL ln
    if t = [] then indentIssuesGo issues expected rest
    else
      let actual := (ln.takeWhile jsWs).length
      let issues2 := if actual = expected * 2 then issues else issues + 1
      let expected2 :=
        if t.getLast? = some lbrace then expected + 1
        else if t.head? = some rbrace then expected - 1
        else expected
      indentIssuesGo issues2 expected2 rest

def countIndentationIssues (code : String) : Nat :=
  indentIssuesGo 0 0 (splitNl code.toList)

-- ### calculateMaxNestingLevel (source lines 206-228)

def maxNestingGo : Int → Int → List (List Char) → Int
  | _, mx, [] => mx
  | cur, mx, ln :: rest =>
    let t := trimL ln
    let cur2 := cur + (countChar lbrace t : Int) - (countChar rbrace t : Int)
    maxNestingGo cur2 (max mx cur2) rest

def calculateMaxNestingLevel (code : String) : Int :=
  maxNestingGo 0 0 (splitNl code.toList)

-- ### countTokens (source lines 455-461)

-- The punctuation-or-whitespace separator set of the source's split regex.
def isTokSep (c : Char) : Bool :=
  jsWs c || c == '(' || c == ')' || c == lbrace || c == rbrace || c == '[' ||
  c == ']' || c == ';' || c == ',' || c == '.' || c == '+' || c == '-' ||
  c == '*' || c == '/' || c == '=' || c == '!' || c == '<' || c == '>' ||
  c == '&' || c == '|' || c == '^' || c == '%' || c == '?' || c == ':' || c == '~'

-- Splitting on runs of separators and discarding empty fragments leaves
-- exactly the maximal runs of non-separator characters.
def countTokensGo : Bool → List Char → Nat
  | _, [] => 0
  | inTok, c :: rest =>
    if isTokSep c then countTokensGo false rest
    else (if inTok then 0 else 1) + countTokensGo true rest

def countTokens (code : String) : Nat := countTokensGo false code.toList

-- ### analyzeVariableNames (source lines 469-491)

structure VarStats where
  count : Nat
  avgLength : ℚ
  shortNames : Nat
  descriptiveNames : Nat

def sumLens (names : List (List Char)) : Nat := (names.map List.length).sum

def analyzeVariableNames (code : String) : VarStats :=
  let varNames := extractVarNames code.toList
  let totalLength := sumLens varNames
  let avgLength : ℚ :=
    if varNames.length = 0 then 0 else (totalLength : ℚ) / (varNames.length : ℚ)
  { count := varNames.length
    avgLength := avgLength
    shortNames := (varNames.filter (fun n => decide (n.length ≤ 2))).length
    descriptiveNames := (varNames.filter (fun n =>
      decide (3 < n.length) && (n.any isUpperAZ || n.contains '_'))).length }

-- ### TRANSFORMATION_POINTS and calculateScore (source lines 8-41)

-- The own properties of the TRANSFORMATION_POINTS object literal.
def TRANSFORMATION_POINTS_own (id : String) : Option ℚ :=
  if id = "format" then some 10
  else if id = "minify" then some 20
  else if id = "es6-to-es5" then some 30
  else if id = "jsx-to-js" then some 40
  else if id = "rename-variables" then some 25
  else if id = "flatten-control-flow" then some 35
  else if id = "remove-dead-code" then some 30
  else none

-- Property names every plain object literal inherits from Object.prototype
-- in a standard ECMAScript environment (including the Annex B legacy
-- accessors): reading one of these from the table does not give undefined
-- but the inherited member - a function or object, truthy and non-numeric.
def objectPrototypeKeys : List String :=
  ["constructor", "hasOwnProperty", "isPrototypeOf", "propertyIsEnumerable",
   "toLocaleString", "toString", "valueOf", "__proto__",
   "__defineGetter__", "__defineSetter__", "__lookupGetter__", "__lookupSetter__"]

-- The value categories a property read of the table can produce: an own
-- numeric entry, a truthy non-numeric member inherited from
-- Object.prototype, or undefined.
inductive PropValue where
  | num : ℚ → PropValue
  | inherited : PropValue
  | undef : PropValue
deriving DecidableEq

-- TRANSFORMATION_POINTS[transformerId]: JS property access consults the
-- prototype chain after the own properties.
def TRANSFORMATION_POINTS (id : String) : PropValue :=
  match TRANSFORMATION_POINTS_own id with
  | some q => PropValue.num q
  | none => if id ∈ objectPrototypeKeys then PropValue.inherited else PropValue.undef

-- TRANSFORMATION_POINTS[transformerId] || 5: the stored numbers are nonzero
-- and the inherited prototype members are functions or objects, all truthy,
-- so only undefined falls back to 5.
def basePoints (id : String) : PropValue :=
  match TRANSFORMATION_POINTS id with
  | PropValue.num q => PropValue.num q
  | PropValue.inherited => PropValue.inherited
  | PropValue.undef => PropValue.num 5

-- ### calculateComplexityFactor (source lines 50-78)

def lengthFactorOf (o : String) : ℚ :=
  if 1000 < o.length then 1.5
  else if 500 < o.length then 1.25
  else if 200 < o.length then 1.1
  else 1.0

def changeFactorOf (o t : String) : ℚ :=
  let changePercentage := jdiv |((t.length : ℚ) - (o.length : ℚ))| (o.length : ℚ)
  if jgtQ changePercentage 0.5 then 1.5
  else if jgtQ changePercentage 0.3 then 1.3
  else if jgtQ changePercentage 0.1 then 1.1
  else 1.0

def calculateComplexityFactor (o t : String) : ℚ :=
  lengthFactorOf o * changeFactorOf o t

-- ### calculateBonusPoints (source lines 88-198), one definition per case

def formatBonus (o t : String) : Int :=
  let originalIndentation := countIndentationIssues o
  let transformedIndentation := countIndentationIssues t
  if transformedIndentation < originalIndentation then
    ((originalIndentation : Int) - (transformedIndentation : Int)) * 2
  else 0

def minifyBonus (o t : String) : Int :=
  let sizeReduction := jdiv ((o.length : ℚ) - (t.length : ℚ)) (o.length : ℚ)
  if jgtQ sizeReduction 0.5 then 30
  else if jgtQ sizeReduction 0.3 then 20
  else if jgtQ sizeReduction 0.1 then 10
  else 0

def es6Bonus (o t : String) : Int :=
  let arrowFunctionsConverted : Int :=
    (countOccurrences o.toList ['=','>'] : Int) - (countOccurrences t.toList ['=','>'] : Int)
  let letConstConverted : Int :=
    ((countOccurrences o.toList ['l','e','t',' '] : Int)
      + (countOccurrences o.toList ['c','o','n','s','t',' '] : Int)) -
    ((countOccurrences t.toList ['l','e','t',' '] : Int)
      + (countOccurrences t.toList ['c','o','n','s','t',' '] : Int))
  arrowFunctionsConverted * 5 + letConstConverted * 3

def jsxBonus (o t : String) : Int :=
  ((countOccurrences o.toList ['<'] : Int) - (countOccurrences t.toList ['<'] : Int)) * 5

def renameBonus (o t : String) : Int :=
  let originalVarNames := extractVarNames o.toList
  let transformedVarNames := extractVarNames t.toList
  let originalAvgLength : ℚ :=
    if originalVarNames.length = 0 then 0
    else (sumLens originalVarNames : ℚ) / (originalVarNames.length : ℚ)
  let transformedAvgLength : ℚ :=
    if transformedVarNames.length = 0 then 0
    else (sumLens transformedVarNames : ℚ) / (transformedVarNames.length : ℚ)
  let avgTerm : Int :=
    if originalAvgLength < transformedAvgLength then
      jsRound ((transformedAvgLength - originalAvgLength) * 10)
    else 0
  let originalShortVars := (originalVarNames.filter (fun n => n.length == 1)).length
  let transformedShortVars := (transformedVarNames.filter (fun n => n.length == 1)).length
  let shortTerm : Int :=
    if transformedShortVars < originalShortVars then
      ((originalShortVars : Int) - (transformedShortVars : Int)) * 5
    else 0
  avgTerm + shortTerm

def flattenBonus (o t : String) : Int :=
  let originalNestingLevel := calculateMaxNestingLevel o
  let transformedNestingLevel := calculateMaxNestingLevel t
  if transformedNestingLevel < originalNestingLevel then
    (originalNestingLevel - transformedNestingLevel) * 10
  else 0

def deadCodeBonus (o t : String) : Int :=
  let unreachableBlocksRemoved : Int :=
    (countPat tryIfFalse o.toList : Int) - (countPat tryIfFalse t.toList : Int)
  let emptyBlocksRemoved : Int :=
    (countPat tryEmptyBlock o.toList : Int) - (countPat tryEmptyBlock t.toList : Int)
  let codeReduction := jdiv ((o.length : ℚ) - (t.length : ℚ)) (o.length : ℚ)
  let tier : Int :=
    if jgtQ codeReduction 0.2 then 20
    else if jgtQ codeReduction 0.1 then 10
    else if jgtQ codeReduction 0.05 then 5
    else 0
  unreachableBlocksRemoved * 15 + emptyBlocksRemoved * 5 + tier

-- The switch statement of the source; an unlisted id falls through with 0.
def calculateBonusPoints (o t : String) (transformerId : String) : Int :=
  if transformerId = "format" then formatBonus o t
  else if transformerId = "minify" then minifyBonus o t
  else if transformerId = "es6-to-es5" then es6Bonus o t
  else if transformerId = "jsx-to-js" then jsxBonus o t
  else if transformerId = "rename-variables" then renameBonus o t
  else if transformerId = "flatten-control-flow" then flattenBonus o t
  else if transformerId = "remove-dead-code" then deadCodeBonus o t
  else 0

-- ### calculateScore (source lines 27-41)

-- The score is a JS number and may be NaN: when basePoints is the inherited
-- function or object of a prototype key, multiplying it by the complexity
-- factor coerces it to NaN, and NaN propagates through *, + and Math.round.
inductive JValue where
  | num : Int → JValue
  | nan : JValue
deriving DecidableEq

def calculateScore (originalCode transformedCode transformerId : String) : JValue :=
  match basePoints transformerId with
  | PropValue.num q =>
      JValue.num (jsRound (q * calculateComplexityFactor originalCode transformedCode
        + (calculateBonusPoints originalCode transformedCode transformerId : ℚ)))
  | _ => JValue.nan

-- ### getLeaderboard (source lines 289-291)

-- A leaderboard entry: the numeric score plus an opaque payload standing for
-- the remaining fields, which makes stability observable.
structure Entry where
  score : Int
  tag : Nat

-- The comparator (a, b) => b.score - a.score sorts by score descending;
-- Array.prototype.sort is required to be stable by the ECMAScript
-- specification, which insertion sort is.
def leadOrder (a b : Entry) : Prop := b.score ≤ a.score

instance : DecidableRel leadOrder :=
  fun a b => inferInstanceAs (Decidable (b.score ≤ a.score))

instance : IsTotal Entry leadOrder :=
  ⟨fun a b => (le_total a.score b.score).symm⟩

instance : IsTrans Entry leadOrder :=
  ⟨fun _ _ _ h1 h2 => le_trans h2 h1⟩

def getLeaderboard (entries : List Entry) : List Entry :=
  List.insertionSort leadOrder entries

-- ### calculateReadabilityScore (source lines 300-365)

-- The running score before the final clamp. Every contribution is an
-- integer, so the final Math.round of the source is the identity and the
-- model keeps the sum in Int.
def rawReadability (code : String) : Int :=
  let l := code.toList
  let evalUsage := countPat tryEval l
  let functionConstructorUsage := countPat tryNewFunction l
  let singleCharVars := (collectPatB trySingleVar none l).length
  let deepNestings := countPat tryDeep l
  let longPenalty : Int := if 500 < code.length then 5 else 0
  let descriptiveVars := (collectPatB tryDescriptive none l).length
  let namedBodies := collectPat tryFunctionDecl l
  let arrowBodies := collectPat tryArrow l
  let shortNamed := (namedBodies.filter (fun b => decide (countChar '\n' b + 1 < 15))).length
  let shortArrow := (arrowBodies.filter (fun b => decide (countChar '\n' b + 1 < 15))).length
  100 - ((evalUsage : Int) + (functionConstructorUsage : Int)) * 10
    - (singleCharVars : Int) * 5 - (deepNestings : Int) * 5 - longPenalty
    + (descriptiveVars : Int) * 10 + (shortNamed : Int) * 5 + (shortArrow : Int) * 5

-- The guard !code of the source is the empty-string test (the non-string
-- case has no counterpart for a typed snapshot).
def calculateReadabilityScore (code : String) : Int :=
  if code = "" then 0
  else max 0 (min 100 (rawReadability code))

-- ### getChallengeScore (source lines 374-447) and its helpers

def tokenCountScore (o t : String) : Int :=
  let tokenRat := jdiv (countTokens t : ℚ) (countTokens o : ℚ)
  if jltQ tokenRat 0.8 then 15
  else if jleQ tokenRat 1.2 then 10
  else if jgtQ tokenRat 1.5 then -5
  else 0

def variableImprovementScore (o t : String) : Int :=
  let originalAvgLength := (analyzeVariableNames o).avgLength
  let transformedAvgLength := (analyzeVariableNames t).avgLength
  if originalAvgLength < transformedAvgLength then
    min 25 (jsRound ((transformedAvgLength - originalAvgLength) * 8))
  else 0

def evalRemovalScore (o t : String) : Int :=
  let originalEvalCount := countPat tryEval o.toList
  let transformedEvalCount := countPat tryEval t.toList
  if 0 < originalEvalCount ∧ transformedEvalCount = 0 then 20
  else if transformedEvalCount < originalEvalCount then 10
  else if 0 < transformedEvalCount then -10
  else 0

-- assessFormatting (source lines 500-531)
def assessFormatting (o t : String) : Int :=
  let originalLines := splitNl o.toList
  let transformedLines := splitNl t.toList
  let lineScore : Int :=
    if (originalLines.length : ℚ) * 1.2 < (transformedLines.length : ℚ) then 10 else 0
  let originalIndentIssues := countIndentationIssues o
  let transformedIndentIssues := countIndentationIssues t
  let indentScore : Int :=
    if transformedIndentIssues < originalIndentIssues then
      min 15 ((originalIndentIssues : Int) - (transformedIndentIssues : Int))
    else 0
  let originalLongLines :=
    (originalLines.filter (fun ln => decide (100 < (trimL ln).length))).length
  let transformedLongLines :=
    (transformedLines.filter (fun ln => decide (100 < (trimL ln).length))).length
  let longLineScore : Int :=
    if transformedLongLines < originalLongLines then
      min 10 (((originalLongLines : Int) - (transformedLongLines : Int)) * 2)
    else 0
  lineScore + indentScore + longLineScore

structure ChallengeBreakdown where
  tokenCount : Int
  variableNameImprovement : Int
  evalRemoval : Int
  formatting : Int
  total : Int

structure ChallengeResult where
  score : Int
  breakdown : ChallengeBreakdown

-- The score starts at 50, the four components are added, Math.round is the
-- identity on the integral sum, and the clamp to [0, 100] gives
-- breakdown.total, which the score field mirrors.
def getChallengeScore (o t : String) : ChallengeResult :=
  let tc := tokenCountScore o t
  let vi := variableImprovementScore o t
  let er := evalRemovalScore o t
  let fm := assessFormatting o t
  let total := max 0 (min 100 (50 + tc + vi + er + fm))
  { score := total
    breakdown := { tokenCount := tc, variableNameImprovement := vi,
                   evalRemoval := er, formatting := fm, total := total } }

-- ### Definitions taken from the specification's wording, for comparison

-- The rename-variables bonus exactly as the specification tabulates it:
-- round(10 x increase in average declared-name length, 0 if no increase)
-- plus 5 x (original minus transformed single-character-name count), the
-- second term applied with its sign, also when negative.
def renameBonusClaimed (o t : String) : Int :=
  let originalVarNames := extractVarNames o.toList
  let transformedVarNames := extractVarNames t.toList
  let originalAvgLength : ℚ :=
    if originalVarNames.length = 0 then 0
    else (sumLens originalVarNames : ℚ) / (originalVarNames.length : ℚ)
  let transformedAvgLength : ℚ :=
    if transformedVarNames.length = 0 then 0
    else (sumLens transformedVarNames : ℚ) / (transformedVarNames.length : ℚ)
  let avgTerm : Int :=
    if originalAvgLength < transformedAvgLength then
      jsRound ((transformedAvgLength - originalAvgLength) * 10)
    else 0
  let originalShortVars := (originalVarNames.filter (fun n => n.length == 1)).length
  let transformedShortVars := (transformedVarNames.filter (fun n => n.length == 1)).length
  avgTerm + 5 * ((originalShortVars : Int) - (transformedShortVars : Int))

-- The rename-variables bonus with the single correction the counterexample
-- forces on the claim: the single-character term only ever contributes a
-- reduction, never a negative amount.
def renameBonusAmended (o t : String) : Int :=
  let originalVarNames := extractVarNames o.toList
  let transformedVarNames := extractVarNames t.toList
  let originalAvgLength : ℚ :=
    if originalVarNames.length = 0 then 0
    else (sumLens originalVarNames : ℚ) / (originalVarNames.length : ℚ)
  let transformedAvgLength : ℚ :=
    if transformedVarNames.length = 0 then 0
    else (sumLens transformedVarNames : ℚ) / (transformedVarNames.length : ℚ)
  let avgTerm : Int :=
    if originalAvgLength < transformedAvgLength then
      jsRound ((transformedAvgLength - originalAvgLength) * 10)
    else 0
  let originalShortVars := (originalVarNames.filter (fun n => n.length == 1)).length
  let transformedShortVars := (transformedVarNames.filter (fun n => n.length == 1)).length
  avgTerm + 5 * max 0 ((originalShortVars : Int) - (transformedShortVars : Int))

-- The concrete snapshot of the specification's readability scenario, written
-- with explicit character codes (0x27 is the single quote): eval of a
-- one-character string literal followed by a semicolon.
def evalSnippet : String := String.mk ['e','v','a','l','(','\x27','x','\x27',')',';']

-- ### Helper lemmas

lemma guarded_short_term (a b : Nat) :
    (if b < a then ((a : Int) - (b : Int)) * 5 else 0) = 5 * max 0 ((a : Int) - (b : Int)) := by
  split_ifs with h <;> omega

lemma calculateScore_num (o t id : String) (q : ℚ) (h : basePoints id = PropValue.num q) :
    calculateScore o t id = JValue.num (jsRound (q * calculateComplexityFactor o t
      + (calculateBonusPoints o t id : ℚ))) := by
  unfold calculateScore
  rw [h]

lemma calculateScore_inherited (o t id : String) (h : basePoints id = PropValue.inherited) :
    calculateScore o t id = JValue.nan := by
  unfold calculateScore
  rw [h]

lemma jsRound_intCast (n : ℤ) : jsRound ((n : ℚ)) = n := by
  unfold jsRound
  rw [Int.floor_eq_iff]
  constructor
  · linarith
  · linarith

lemma lengthFactorOf_small (o : String) (h : o.length ≤ 200) : lengthFactorOf o = 1 := by
  unfold lengthFactorOf
  rw [if_neg (by omega), if_neg (by omega), if_neg (by omega)]
  norm_num

lemma changeFactorOf_same_length (o t : String) (h : t.length = o.length) :
    changeFactorOf o t = 1 := by
  have habs : |((t.length : ℚ)) - ((o.length : ℚ))| = 0 := by
    rw [h]
    simp
  simp only [changeFactorOf, habs]
  by_cases ho : ((o.length : ℚ)) = 0
  · simp only [jdiv, if_pos ho, if_pos rfl]
    norm_num [jgtQ]
  · simp only [jdiv, if_neg ho, zero_div]
    norm_num [jgtQ]

lemma changeFactorOf_empty (t : String) :
    changeFactorOf "" t = if t.length = 0 then 1 else 1.5 := by
  have h0 : ((("" : String).length : ℚ)) = 0 := by
    norm_num [String.length]
  by_cases ht : t.length = 0
  · have h1 : ((t.length : ℚ)) = 0 := by exact_mod_cast ht
    simp only [changeFactorOf, h0, h1, sub_zero, abs_zero, jdiv, if_pos rfl]
    norm_num [jgtQ, ht]
  · have h1 : (0 : ℚ) < ((t.length : ℚ)) := by
      exact_mod_cast Nat.pos_of_ne_zero ht
    have habs : |((t.length : ℚ)) - ((("" : String).length : ℚ))| = ((t.length : ℚ)) := by
      rw [h0, sub_zero, abs_of_pos h1]
    have hjd : jdiv ((t.length : ℚ)) ((("" : String).length : ℚ)) = JNum.posInf := by
      unfold jdiv
      rw [if_pos h0, if_neg (ne_of_gt h1), if_pos h1]
    simp only [changeFactorOf, habs, hjd]
    norm_num [jgtQ, ht]

lemma changeFactorOf_top (o t : String) (hpos : (0 : ℚ) < ((o.length : ℚ)))
    (h : ((o.length : ℚ)) / 2 < |((t.length : ℚ)) - ((o.length : ℚ))|) :
    changeFactorOf o t = 1.5 := by
  have hgt : jgtQ (jdiv |((t.length : ℚ)) - ((o.length : ℚ))| ((o.length : ℚ))) 0.5 = true := by
    simp only [jdiv, if_neg (ne_of_gt hpos), jgtQ, decide_eq_true_eq]
    rw [lt_div_iff₀ hpos]
    rw [div_lt_iff₀ (by norm_num : (0 : ℚ) < 2)] at h
    linarith
  simp [changeFactorOf, hgt]

lemma filter_score_orderedInsert (s : Int) (x : Entry) (l : List Entry) :
    (List.orderedInsert leadOrder x l).filter (fun e => e.score == s) =
      (if x.score = s then [x] else []) ++ l.filter (fun e => e.score == s) := by
  induction l with
  | nil =>
    by_cases hx : x.score = s <;> simp [List.orderedInsert, hx]
  | cons y ys ih =>
    by_cases hxy : leadOrder x y
    · by_cases hx : x.score = s <;> simp [List.orderedInsert, hxy, hx, List.filter_cons]
    · have hlt : x.score < y.score := by
        have := not_le.mp hxy
        exact this
      by_cases hx : x.score = s
      · have hyn : ¬(y.score = s) := by omega
        simp [List.orderedInsert, hxy, List.filter_cons, hx, hyn, ih]
      · by_cases hys : y.score = s <;>
          simp [List.orderedInsert, hxy, List.filter_cons, hx, hys, ih]

lemma filter_score_insertionSort (s : Int) (l : List Entry) :
    (List.insertionSort leadOrder l).filter (fun e => e.score == s) =
      l.filter (fun e => e.score == s) := by
  induction l with
  | nil => rfl
  | cons x xs ih =>
    by_cases hx : x.score = s <;>
      simp [List.insertionSort, filter_score_orderedInsert, ih, List.filter_cons, hx]

-- ### The claims

/-- C1 counterexample: the id toString is not listed in the base-points
table, yet the property read finds the inherited Object.prototype function -
a truthy value, so the 5 default never applies and the arithmetic produces
NaN rather than the claimed round(5 x 1.0) = 5. -/
theorem unknown_transformer_counterexample :
    ¬ (calculateScore "x" "x" "toString" = JValue.num 5) ∧
    calculateScore "x" "x" "toString" = JValue.nan := by
  have h : calculateScore "x" "x" "toString" = JValue.nan :=
    calculateScore_inherited _ _ _ (by decide)
  exact ⟨by rw [h]; simp, h⟩

/-- C1 (amended): a transformer id outside the base-points table gets base
points 5 only when it is also not a property of Object.prototype; then the
bonus is 0 (switch default) and the score is the rounded product of 5 and
the complexity factor - in particular 5 whenever that factor is 1.0. For an
id inherited from Object.prototype the lookup gives a truthy non-number and
calculateScore is NaN. -/
theorem unknown_transformer_amended (o t id : String)
    (h : id ∉ (["format", "minify", "es6-to-es5", "jsx-to-js", "rename-variables",
      "flatten-control-flow", "remove-dead-code"] : List String))
    (hp : id ∉ objectPrototypeKeys) :
    calculateScore o t id = JValue.num (jsRound (5 * calculateComplexityFactor o t)) ∧
    (calculateComplexityFactor o t = 1 → calculateScore o t id = JValue.num 5) ∧
    (∀ pid ∈ objectPrototypeKeys, calculateScore o t pid = JValue.nan) := by
  simp only [List.mem_cons, List.mem_singleton, not_or] at h
  obtain ⟨h1, h2, h3, h4, h5, h6, h7⟩ := h
  have hown : TRANSFORMATION_POINTS_own id = none := by
    simp [TRANSFORMATION_POINTS_own, h1, h2, h3, h4, h5, h6, h7]
  have hb : basePoints id = PropValue.num 5 := by
    simp [basePoints, TRANSFORMATION_POINTS, hown, hp]
  have hbp : calculateBonusPoints o t id = 0 := by
    simp [calculateBonusPoints, h1, h2, h3, h4, h5, h6, h7]
  have hmain : calculateScore o t id
      = JValue.num (jsRound (5 * calculateComplexityFactor o t)) := by
    rw [calculateScore_num o t id 5 hb, hbp]
    norm_num
  refine ⟨hmain, fun hcf => ?_, fun pid hpid => ?_⟩
  · rw [hmain, hcf]
    congr 1
    calc jsRound (5 * 1) = jsRound (((5 : ℤ) : ℚ)) := by norm_num
      _ = 5 := jsRound_intCast 5
  · refine calculateScore_inherited o t pid ?_
    simp only [objectPrototypeKeys, List.mem_cons, List.not_mem_nil, or_false] at hpid
    rcases hpid with hx | hx | hx | hx | hx | hx | hx | hx | hx | hx | hx | hx <;>
      subst hx <;> decide

/-- C1 witness: a concrete unknown, non-prototype id on a pair of equal
one-character snapshots, whose complexity factor is 1.0, scores exactly 5. -/
theorem unknown_transformer_witness :
    calculateScore "x" "x" "unknown-id" = JValue.num 5 := by
  have hcf : calculateComplexityFactor "x" "x" = 1 := by
    rw [calculateComplexityFactor, lengthFactorOf_small _ (by decide),
      changeFactorOf_same_length _ _ rfl, one_mul]
  exact (unknown_transformer_amended "x" "x" "unknown-id" (by decide) (by decide)).2.1 hcf

/-- C2 counterexample: with an empty original and a nonempty transformed
string the change ratio divides by zero and becomes infinite, not 0, so the
complexity factor is 1.5 rather than the claimed 1.0. -/
theorem complexity_factor_empty_counterexample :
    ¬ (calculateComplexityFactor "" "a" = 1) := by
  have h : calculateComplexityFactor "" "a" = 1.5 := by
    rw [calculateComplexityFactor, lengthFactorOf_small _ (by decide), one_mul,
      changeFactorOf_empty, if_neg (by decide)]
  rw [h]
  norm_num

/-- C2 (amended): for a zero-length original the source has no guard; the 0/0
NaN fails every tier test (change factor 1.0) while the positive-over-zero
infinity passes the top tier (change factor 1.5), so the factor is 1.0 when
the transformed string is also empty and 1.5 otherwise - always finite. -/
theorem complexity_factor_empty_amended (t : String) :
    calculateComplexityFactor "" t = if t.length = 0 then 1 else 3/2 := by
  rw [calculateComplexityFactor, lengthFactorOf_small _ (by decide), one_mul,
    changeFactorOf_empty]
  by_cases ht : t.length = 0
  · rw [if_pos ht, if_pos ht]
  · rw [if_neg ht, if_neg ht]
    norm_num

/-- C3 counterexample: renaming the sole two-character variable to a single
character gives bonus 0 in the source (the single-character term is guarded
to reductions only), while the claim's signed formula demands -5. -/
theorem rename_bonus_counterexample :
    calculateBonusPoints "var ab" "var a" "rename-variables" = 0 ∧
    renameBonusClaimed "var ab" "var a" = -5 := by
  have e1 : extractVarNames (String.toList "var ab") = [['a', 'b']] := by decide
  have e2 : extractVarNames (String.toList "var a") = [['a']] := by decide
  constructor
  · show renameBonus "var ab" "var a" = 0
    simp only [renameBonus, e1, e2]
    norm_num [sumLens, jsRound]
  · simp only [renameBonusClaimed, e1, e2]
    norm_num [sumLens, jsRound]

/-- C3 (amended): the rename-variables bonus is the tabulated average-length
term plus 5 x the reduction in single-character names counted only when that
count strictly decreases - a growth in single-character names contributes 0,
not a negative amount. -/
theorem rename_bonus_amended (o t : String) :
    calculateBonusPoints o t "rename-variables" = renameBonusAmended o t := by
  show renameBonus o t = renameBonusAmended o t
  simp only [renameBonus, renameBonusAmended]
  rw [guarded_short_term]

/-- C4: the readability score is an integer clamped to [0, 100], the empty
snapshot scores 0, and the one-eval snapshot of the specification's concrete
scenario scores 100 - 10 = 90. -/
theorem readability_score_contract :
    (∀ code : String,
        0 ≤ calculateReadabilityScore code ∧ calculateReadabilityScore code ≤ 100) ∧
    calculateReadabilityScore "" = 0 ∧
    calculateReadabilityScore evalSnippet = 90 := by
  refine ⟨fun code => ?_, by decide, by decide⟩
  unfold calculateReadabilityScore
  split
  · exact ⟨le_refl 0, by norm_num⟩
  · exact ⟨le_max_left _ _, max_le (by norm_num) (min_le_left _ _)⟩

/-- C5: the challenge score is the clamp to [0, 100] of 50 plus the four
breakdown components (each an integer, so rounding is the identity), lies in
[0, 100], and the score field equals breakdown.total. -/
theorem challenge_score_structure (o t : String) :
    (getChallengeScore o t).score =
      max 0 (min 100 (50 + (getChallengeScore o t).breakdown.tokenCount
        + (getChallengeScore o t).breakdown.variableNameImprovement
        + (getChallengeScore o t).breakdown.evalRemoval
        + (getChallengeScore o t).breakdown.formatting)) ∧
    0 ≤ (getChallengeScore o t).score ∧ (getChallengeScore o t).score ≤ 100 ∧
    (getChallengeScore o t).score = (getChallengeScore o t).breakdown.total := by
  refine ⟨rfl, le_max_left _ _, max_le (by norm_num) (min_le_left _ _), rfl⟩

/-- C6: the transform score is not floored at 0: a jsx-to-js run whose
transformed code adds twenty angle brackets drives the signed bonus to -100
against 40 x 1.5 base points, for a total of -40. -/
theorem transform_score_negative :
    ∃ o t id : String, ∃ n : Int, calculateScore o t id = JValue.num n ∧ n < 0 := by
  refine ⟨"x", "<<<<<<<<<<<<<<<<<<<<", "jsx-to-js", -40, ?_, by norm_num⟩
  have h1 : ("x" : String).length = 1 := by decide
  have h2 : ("<<<<<<<<<<<<<<<<<<<<" : String).length = 20 := by decide
  have hb : calculateBonusPoints "x" "<<<<<<<<<<<<<<<<<<<<" "jsx-to-js" = -100 := by decide
  have hbase : basePoints "jsx-to-js" = PropValue.num 40 := rfl
  have hlf : lengthFactorOf "x" = 1 := lengthFactorOf_small _ (by decide)
  have hcf : changeFactorOf "x" "<<<<<<<<<<<<<<<<<<<<" = 1.5 := by
    refine changeFactorOf_top _ _ ?_ ?_
    · rw [h1]
      norm_num
    · rw [h1, h2]
      push_cast
      rw [abs_of_nonneg (by norm_num : (0 : ℚ) ≤ 20 - 1)]
      norm_num
  have hcs : calculateScore "x" "<<<<<<<<<<<<<<<<<<<<" "jsx-to-js"
      = JValue.num (jsRound ((40 : ℚ) * 1.5 + (((-100 : ℤ)) : ℚ))) := by
    rw [calculateScore_num _ _ _ 40 hbase, calculateComplexityFactor, hlf, hcf, one_mul, hb]
  have harg : ((40 : ℚ) * 1.5 + (((-100 : ℤ)) : ℚ)) = (((-40 : ℤ)) : ℚ) := by
    push_cast
    norm_num
  rw [hcs, harg, jsRound_intCast]

/-- C7: the complexity factor is the product of a length factor in
(1.0, 1.1, 1.25, 1.5) and a change factor in (1.0, 1.1, 1.3, 1.5), and lies
in [1, 2.25] for every pair of snapshots, empty ones included. -/
theorem complexity_factor_bounds (o t : String) :
    calculateComplexityFactor o t = lengthFactorOf o * changeFactorOf o t ∧
    (lengthFactorOf o = 1 ∨ lengthFactorOf o = 1.1 ∨
      lengthFactorOf o = 1.25 ∨ lengthFactorOf o = 1.5) ∧
    (changeFactorOf o t = 1 ∨ changeFactorOf o t = 1.1 ∨
      changeFactorOf o t = 1.3 ∨ changeFactorOf o t = 1.5) ∧
    1 ≤ calculateComplexityFactor o t ∧ calculateComplexityFactor o t ≤ 2.25 := by
  have hl : lengthFactorOf o = 1 ∨ lengthFactorOf o = 1.1 ∨
      lengthFactorOf o = 1.25 ∨ lengthFactorOf o = 1.5 := by
    unfold lengthFactorOf
    split_ifs <;> norm_num
  have hc : changeFactorOf o t = 1 ∨ changeFactorOf o t = 1.1 ∨
      changeFactorOf o t = 1.3 ∨ changeFactorOf o t = 1.5 := by
    simp only [changeFactorOf]
    split_ifs <;> norm_num
  refine ⟨rfl, hl, hc, ?_, ?_⟩ <;>
    rcases hl with h1 | h1 | h1 | h1 <;> rcases hc with h2 | h2 | h2 | h2 <;>
      rw [calculateComplexityFactor, h1, h2] <;> norm_num

/-- C8: for a fixed original of positive length the tiered minify bonus is
monotone non-decreasing in the size-reduction ratio. -/
theorem minify_bonus_monotone (o a b : String) (hlen : 0 < o.length)
    (hr : ((o.length : ℚ) - (a.length : ℚ)) / (o.length : ℚ)
        < ((o.length : ℚ) - (b.length : ℚ)) / (o.length : ℚ)) :
    calculateBonusPoints o a "minify" ≤ calculateBonusPoints o b "minify" := by
  have hne : ((o.length : ℚ)) ≠ 0 := by
    exact_mod_cast Nat.pos_iff_ne_zero.mp hlen
  show minifyBonus o a ≤ minifyBonus o b
  simp only [minifyBonus, jdiv, if_neg hne, jgtQ, decide_eq_true_eq]
  split_ifs <;> first | (exfalso; linarith) | norm_num

/-- C8 witness: reducing ten characters to three (ratio 0.7) scores at least
as much as not reducing at all (ratio 0). -/
theorem minify_bonus_monotone_witness :
    calculateBonusPoints "aaaaaaaaaa" "aaaaaaaaaa" "minify"
      ≤ calculateBonusPoints "aaaaaaaaaa" "aaa" "minify" := by
  have h10 : ("aaaaaaaaaa" : String).length = 10 := by decide
  have h3 : ("aaa" : String).length = 3 := by decide
  refine minify_bonus_monotone "aaaaaaaaaa" "aaaaaaaaaa" "aaa" (by decide) ?_
  rw [h10, h3]
  push_cast
  norm_num

/-- C9: the leaderboard is a permutation of the input sorted by score
descending; it is stable (filtering the output at any score value yields the
same subsequence as filtering the input), and an already-descending list is
returned unchanged. -/
theorem leaderboard_sorted_stable :
    (∀ l : List Entry, (getLeaderboard l).Perm l ∧
        List.Sorted leadOrder (getLeaderboard l) ∧
        (∀ s : Int, (getLeaderboard l).filter (fun e => e.score == s) =
          l.filter (fun e => e.score == s))) ∧
    (∀ l : List Entry, List.Sorted leadOrder l → getLeaderboard l = l) :=
  ⟨fun l => ⟨List.perm_insertionSort leadOrder l, List.sorted_insertionSort leadOrder l,
      fun s => filter_score_insertionSort s l⟩,
    fun _ h => h.insertionSort_eq⟩

/-- C9 witness: a concrete already-sorted descending leaderboard is returned
in the same order. -/
theorem leaderboard_witness :
    getLeaderboard [⟨20, 0⟩, ⟨10, 1⟩, ⟨5, 2⟩] = [⟨20, 0⟩, ⟨10, 1⟩, ⟨5, 2⟩] :=
  leaderboard_sorted_stable.2 _ (by decide)

/-- C10: with a zero-token original the token ratio divides by zero; the
0/0 NaN fails every tier test (component 0) when the transformed code also
has no tokens, while the infinity of a positive count hits the too-many-
tokens tier (-5); the remaining components follow their usual formulas,
untouched by the zero-token original. -/
theorem challenge_zero_token_original (o t : String) (h : countTokens o = 0) :
    (getChallengeScore o t).breakdown.tokenCount
        = (if countTokens t = 0 then 0 else -5) ∧
    (getChallengeScore o t).breakdown.variableNameImprovement
        = variableImprovementScore o t ∧
    (getChallengeScore o t).breakdown.evalRemoval = evalRemovalScore o t ∧
    (getChallengeScore o t).breakdown.formatting = assessFormatting o t := by
  refine ⟨?_, rfl, rfl, rfl⟩
  show tokenCountScore o t = _
  unfold tokenCountScore
  rw [h]
  by_cases ht : countTokens t = 0
  · have hjd : jdiv (((countTokens t : ℕ)) : ℚ) (((0 : ℕ)) : ℚ) = JNum.nan := by
      unfold jdiv
      rw [if_pos (by norm_num), if_pos (by exact_mod_cast ht)]
    rw [hjd]
    simp [jltQ, jleQ, jgtQ, ht]
  · have hpos : (0 : ℚ) < ((countTokens t : ℕ) : ℚ) := by
      exact_mod_cast Nat.pos_of_ne_zero ht
    have hjd : jdiv (((countTokens t : ℕ)) : ℚ) (((0 : ℕ)) : ℚ) = JNum.posInf := by
      unfold jdiv
      rw [if_pos (by norm_num), if_neg (ne_of_gt hpos), if_pos hpos]
    rw [hjd]
    simp [jltQ, jleQ, jgtQ, ht]

/-- C10 witness: the empty original has zero tokens and a one-token
transformed snapshot lands on the -5 tier. -/
theorem challenge_zero_token_witness :
    (getChallengeScore "" "x").breakdown.tokenCount = -5 := by
  rw [(challenge_zero_token_original "" "x" (by decide)).1]
  decide
